import Mathlib

/-!
# Store codec of `collections/collections.go`

A shallow embedding of the Go package `collections`: the `Object` interface,
the `storeCodec` with its `marshal` / `unmarshal` methods, the sentinel
`setObject`, and `typeName`.

Conventions of the embedding.

* A Go call either returns a value or panics; `Outcome` records which.
* A Go `error` result is an `Option`: `none` is `nil`.
* A `[]byte` is a `List Byte`; the `nil` slice and the empty slice are both `[]`
  (the code only compares them with `bytes.Equal`, which identifies the two).
* An interface value of type `Object` is a method table (`Object`) together with
  the state of the value it holds; methods take that state and give the new one,
  so in-place mutation through a pointer receiver is explicit.
* Calls that leave the package (the object's methods, the resolver) are logged
  in `Mem.calls`, oldest first, so that the order and number of calls can be
  stated.
* `nil` interface values and `nil` receivers are outside the model.
-/

namespace collections

/-- One byte. -/
abbrev Byte := Fin 256

/-- Argument given to Go's `panic`: an `error` value (`panic(err)`) or a string
(`panic("bad usage")`). -/
inductive PanicValue (ε : Type) where
  | error (err : ε)
  | message (msg : String)
  deriving DecidableEq, Repr

/-- How a Go call ends: a normal return or a panic. -/
inductive Outcome (ε α : Type) where
  | ret (a : α)
  | panic (p : PanicValue ε)
  deriving DecidableEq, Repr

/-- Calls made by the codec to code outside of it. -/
inductive Call where
  | Marshal
  | Unmarshal (b : List Byte)
  | UnpackInterfaces
  deriving DecidableEq, Repr

/-- What a call can change: the value held by the `Object` it works on, and the
log of outgoing calls. -/
structure Mem (σ : Type) where
  obj : σ
  calls : List Call
  deriving DecidableEq, Repr

/-- A Go computation over the memory `Mem σ`. -/
def Go (ε σ α : Type) : Type := Mem σ → Mem σ × Outcome ε α

/-- Normal return. -/
def Go.pure {ε σ α : Type} (a : α) : Go ε σ α := fun m => (m, Outcome.ret a)

/-- Sequencing: a panic in the first computation skips the rest. -/
def Go.bind {ε σ α β : Type} (x : Go ε σ α) (f : α → Go ε σ β) : Go ε σ β :=
  fun m =>
    match x m with
    | (m1, Outcome.ret a) => f a m1
    | (m1, Outcome.panic p) => (m1, Outcome.panic p)

instance {ε σ : Type} : Monad (Go ε σ) where
  pure := Go.pure
  bind := Go.bind

/-- Go's builtin `panic(v)`. -/
def Go.panic {ε σ α : Type} (v : PanicValue ε) : Go ε σ α := fun m => (m, Outcome.panic v)

/-- A method call on the object held in memory: the call is logged, the method
runs on the object's state and leaves the new state behind. -/
def Go.call {ε σ α : Type} (c : Call) (f : σ → σ × Outcome ε α) : Go ε σ α :=
  fun m => ((Mem.mk (f m.obj).1 (m.calls ++ [c])), (f m.obj).2)

/-- Dynamic type of an interface value, as far as the type switch of `typeName`
tells types apart. -/
inductive GoType where
  | setObject
  | ptrSetObject
  | other (name : String)
  deriving DecidableEq, Repr

/-- An interface value of type `Object` (source lines 12-18), seen as its
dynamic type and method table over the state `σ` of the value it holds.

`Marshal` and `Unmarshal` are the two methods of the interface. The other
fields are what the dynamic type answers to the type assertions made on it:
`UnpackInterfaces` is the method of `codectypes.UnpackInterfacesMessage` when
the type has it, `ProtoMessage` says whether the type is a `proto.Message`. -/
structure Object (ε R σ : Type) where
  dynType : GoType
  Marshal : σ → σ × Outcome ε (List Byte × Option ε)
  Unmarshal : List Byte → σ → σ × Outcome ε (Option ε)
  UnpackInterfaces : Option (R → σ → σ × Outcome ε (Option ε))
  ProtoMessage : Bool

/-- Modelled from the spec: `codectypes.UnpackInterfaces` (the Interface
Resolver) is a function of the cosmos-sdk and is not part of the sources. The
spec has it finish the polymorphic slots of a decoded object against the
registry, failing when a slot names an unregistered variant, and has an object
"carry no resolver obligations" when there is nothing to resolve. Here the
obligations of an object are its `UnpackInterfaces` method: when the object has
one it is run with the registry, when it has none resolution returns `nil` and
leaves the object as it is. The registry is only read. -/
def codectypes.UnpackInterfaces {ε R σ : Type} (o : Object ε R σ) (ir : R) (s : σ) :
    σ × Outcome ε (Option ε) :=
  match o.UnpackInterfaces with
  | some unpack => unpack ir s
  | none => (s, Outcome.ret none)

/-- The `storeCodec` struct (source lines 23-25). -/
structure storeCodec (R : Type) where
  ir : R

/-- The method `storeCodec.marshal` (source lines 31-37). -/
def storeCodec.marshal {ε R σ : Type} (_c : storeCodec R) (o : Object ε R σ) : Go ε σ (List Byte) := do
  let (bytes, err) ← Go.call Call.Marshal o.Marshal
  match err with
  | some e => Go.panic (PanicValue.error e)
  | none => return bytes

/-- The method `storeCodec.unmarshal` (source lines 39-48). -/
def storeCodec.unmarshal {ε R σ : Type} (c : storeCodec R) (bytes : List Byte) (o : Object ε R σ) :
    Go ε σ Unit := do
  let err ← Go.call (Call.Unmarshal bytes) (o.Unmarshal bytes)
  match err with
  | some e => Go.panic (PanicValue.error e)
  | none =>
    let err ← Go.call Call.UnpackInterfaces (codectypes.UnpackInterfaces o c.ir)
    match err with
    | some e => Go.panic (PanicValue.error e)
    | none => return ()

/-- The struct `setObject` (source line 51): no fields. -/
structure setObject where
  deriving DecidableEq, Repr

/-- The method `setObject.String` (source lines 53-55). -/
def setObject.String {ε : Type} (_n : setObject) : Outcome ε String :=
  Outcome.panic (PanicValue.message "must never be called")

/-- The method `setObject.Marshal` (source lines 57-59). -/
def setObject.Marshal {ε : Type} (_n : setObject) : Outcome ε (List Byte × Option ε) :=
  Outcome.ret ([], none)

/-- The library function `bytes.Equal`: same length and same bytes. -/
def bytes.Equal (a b : List Byte) : Bool := a == b

/-- The method `setObject.Unmarshal` (source lines 61-66). -/
def setObject.Unmarshal {ε : Type} (_n : setObject) (b : List Byte) : Outcome ε (Option ε) :=
  if !bytes.Equal b [] then
    Outcome.panic (PanicValue.message "bad usage")
  else
    Outcome.ret none

/-- A `setObject` value as an `Object`. The methods have value receivers, so the
held value is left as it was; the type declares neither `UnpackInterfaces` nor
the methods of `proto.Message` (it has `String` only). -/
def setObject.toObject {ε R : Type} : Object ε R setObject where
  dynType := GoType.setObject
  Marshal := fun n => (n, setObject.Marshal n)
  Unmarshal := fun b n => (n, setObject.Unmarshal n b)
  UnpackInterfaces := none
  ProtoMessage := false

/-- A `*setObject` as an `Object` (source line 68): the same methods, reached
through the pointer. -/
def setObject.ptrToObject {ε R : Type} : Object ε R setObject where
  dynType := GoType.ptrSetObject
  Marshal := fun n => (n, setObject.Marshal n)
  Unmarshal := fun b n => (n, setObject.Unmarshal n b)
  UnpackInterfaces := none
  ProtoMessage := false

/-- The function `typeName` (source lines 71-81). `MessageName` stands for the
library function `proto.MessageName`, applied to the object once the assertion
`o.(proto.Message)` has succeeded. -/
def typeName {ε R σ : Type} (MessageName : Object ε R σ → σ → String) (o : Object ε R σ) (s : σ) :
    String :=
  match o.dynType with
  | GoType.ptrSetObject => "no-op-object"
  | GoType.setObject => "no-op-object"
  | GoType.other _ =>
    if !o.ProtoMessage then
      "unknown"
    else
      MessageName o s

/-- The expression `c.unmarshal(c.marshal(o), o')` for an object `o` holding `s`
and a target `o'` of the same type holding `s'`: the argument is evaluated
first, and a panic there ends the whole expression. The result is the value
held by the target afterwards and how the expression ended. -/
def roundTrip {ε R σ : Type} (c : storeCodec R) (o : Object ε R σ) (s s' : σ) : σ × Outcome ε Unit :=
  match c.marshal o (Mem.mk s []) with
  | (_, Outcome.ret b) => ((c.unmarshal b o (Mem.mk s' [])).1.obj, (c.unmarshal b o (Mem.mk s' [])).2)
  | (_, Outcome.panic p) => (s', Outcome.panic p)

/-! ### An example object

A message with a single polymorphic slot in the manner of a protobuf `Any`: the
wire form is the type identifier of the variant in the slot, and the slot is
usable once the resolver has found that identifier in the registry. It is used
to instantiate the statements below at concrete inputs. -/

/-- State of the example message: the type identifier in its slot and whether
the slot has been resolved. -/
structure SlotMsg where
  typeId : List Byte
  resolved : Bool
  deriving DecidableEq, Repr

/-- Largest type identifier the example message agrees to encode. -/
def SlotMsg.sizeLimit : Nat := 4

/-- The example message encodes itself as its type identifier, and refuses when
the identifier is over the size limit. -/
def SlotMsg.Marshal (s : SlotMsg) : SlotMsg × Outcome String (List Byte × Option String) :=
  if s.typeId.length > SlotMsg.sizeLimit then
    (s, Outcome.ret ([], some "message too large"))
  else
    (s, Outcome.ret (s.typeId, none))

/-- The example message decodes in place: the bytes become the type identifier
of a slot that is not resolved yet; empty input is rejected. -/
def SlotMsg.Unmarshal (b : List Byte) (s : SlotMsg) : SlotMsg × Outcome String (Option String) :=
  if b = [] then
    (s, Outcome.ret (some "unexpected EOF"))
  else
    (SlotMsg.mk b false, Outcome.ret none)

/-- The example message resolves its slot against a registry given as the list
of registered type identifiers. -/
def SlotMsg.UnpackInterfaces (ir : List (List Byte)) (s : SlotMsg) :
    SlotMsg × Outcome String (Option String) :=
  if s.typeId ∈ ir then
    (SlotMsg.mk s.typeId true, Outcome.ret none)
  else
    (s, Outcome.ret (some "no concrete type registered for type URL"))

/-- The example message as an `Object`. -/
def SlotMsg.toObject : Object String (List (List Byte)) SlotMsg where
  dynType := GoType.other "SlotMsg"
  Marshal := SlotMsg.Marshal
  Unmarshal := SlotMsg.Unmarshal
  UnpackInterfaces := some SlotMsg.UnpackInterfaces
  ProtoMessage := true

/-- A codec whose registry knows the variants `[1]` and `[2]`. -/
def exampleCodec : storeCodec (List (List Byte)) := storeCodec.mk [[1], [2]]

end collections

namespace collections

variable {ε R σ : Type}

/-! ### Running the codec, case by case -/

/-- The run of `unmarshal` when the object's `Unmarshal` panics. -/
theorem unmarshal_run_decode_panic (c : storeCodec R) (b : List Byte) (o : Object ε R σ) (m : Mem σ)
    (p : PanicValue ε) (h : (o.Unmarshal b m.obj).2 = Outcome.panic p) :
    c.unmarshal b o m
      = (Mem.mk (o.Unmarshal b m.obj).1 (m.calls ++ [Call.Unmarshal b]), Outcome.panic p) := by
  simp [storeCodec.unmarshal, bind, Go.bind, Go.call, h]

/-- The run of `unmarshal` when the object's `Unmarshal` returns an error. -/
theorem unmarshal_run_decode_error (c : storeCodec R) (b : List Byte) (o : Object ε R σ) (m : Mem σ)
    (e : ε) (h : (o.Unmarshal b m.obj).2 = Outcome.ret (some e)) :
    c.unmarshal b o m
      = (Mem.mk (o.Unmarshal b m.obj).1 (m.calls ++ [Call.Unmarshal b]),
          Outcome.panic (PanicValue.error e)) := by
  simp [storeCodec.unmarshal, bind, Go.bind, Go.call, Go.panic, h]

/-- The run of `unmarshal` when the object's `Unmarshal` returns `nil`: the
resolver runs on the decoded object and its result decides. -/
theorem unmarshal_run_decode_ok (c : storeCodec R) (b : List Byte) (o : Object ε R σ) (m : Mem σ)
    (h : (o.Unmarshal b m.obj).2 = Outcome.ret none) :
    c.unmarshal b o m
      = (Mem.mk (codectypes.UnpackInterfaces o c.ir (o.Unmarshal b m.obj).1).1
            (m.calls ++ [Call.Unmarshal b, Call.UnpackInterfaces]),
          match (codectypes.UnpackInterfaces o c.ir (o.Unmarshal b m.obj).1).2 with
          | Outcome.ret none => Outcome.ret ()
          | Outcome.ret (some e) => Outcome.panic (PanicValue.error e)
          | Outcome.panic p => Outcome.panic p) := by
  simp only [storeCodec.unmarshal, bind, Go.bind, Go.call, h]
  rcases hr : (codectypes.UnpackInterfaces o c.ir (o.Unmarshal b m.obj).1).2 with (_ | e) | p <;>
    simp [Go.panic, pure, Go.pure]

/-- The run of `marshal`, by the result of the object's `Marshal`. -/
theorem marshal_run (c : storeCodec R) (o : Object ε R σ) (m : Mem σ) :
    c.marshal o m
      = (Mem.mk (o.Marshal m.obj).1 (m.calls ++ [Call.Marshal]),
          match (o.Marshal m.obj).2 with
          | Outcome.ret (bytes, none) => Outcome.ret bytes
          | Outcome.ret (_, some e) => Outcome.panic (PanicValue.error e)
          | Outcome.panic p => Outcome.panic p) := by
  simp only [storeCodec.marshal, bind, Go.bind, Go.call]
  rcases hr : (o.Marshal m.obj).2 with ⟨bytes, _ | e⟩ | p <;>
    simp [Go.panic, pure, Go.pure]

/-! ### `storeCodec.unmarshal` -/

/-- C1: for every byte string, object and registry, `storeCodec.unmarshal`
returns normally exactly when the object's `Unmarshal` returns `nil` and the
interface resolution of the decoded object returns `nil` too. When either step
returns an error the call panics with that error, and when either step panics
the call panics with the same value; in none of these cases does it return. -/
theorem C1_unmarshal_completes_iff (c : storeCodec R) (b : List Byte) (o : Object ε R σ) (m : Mem σ) :
    ((c.unmarshal b o m).2 = Outcome.ret () ↔
        (o.Unmarshal b m.obj).2 = Outcome.ret none ∧
        (codectypes.UnpackInterfaces o c.ir (o.Unmarshal b m.obj).1).2 = Outcome.ret none) ∧
    (∀ e, (o.Unmarshal b m.obj).2 = Outcome.ret (some e) →
        (c.unmarshal b o m).2 = Outcome.panic (PanicValue.error e)) ∧
    (∀ p, (o.Unmarshal b m.obj).2 = Outcome.panic p →
        (c.unmarshal b o m).2 = Outcome.panic p) ∧
    (∀ e, (o.Unmarshal b m.obj).2 = Outcome.ret none →
        (codectypes.UnpackInterfaces o c.ir (o.Unmarshal b m.obj).1).2 = Outcome.ret (some e) →
        (c.unmarshal b o m).2 = Outcome.panic (PanicValue.error e)) ∧
    (∀ p, (o.Unmarshal b m.obj).2 = Outcome.ret none →
        (codectypes.UnpackInterfaces o c.ir (o.Unmarshal b m.obj).1).2 = Outcome.panic p →
        (c.unmarshal b o m).2 = Outcome.panic p) := by
  refine ⟨?_, ?_, ?_, ?_, ?_⟩
  · rcases hu : (o.Unmarshal b m.obj).2 with (_ | e) | p
    · rw [unmarshal_run_decode_ok c b o m hu]
      rcases hr : (codectypes.UnpackInterfaces o c.ir (o.Unmarshal b m.obj).1).2 with (_ | e) | p <;>
        simp
    · rw [unmarshal_run_decode_error c b o m e hu]
      simp
    · rw [unmarshal_run_decode_panic c b o m p hu]
      simp
  · intro e hu
    rw [unmarshal_run_decode_error c b o m e hu]
  · intro p hu
    rw [unmarshal_run_decode_panic c b o m p hu]
  · intro e hu hr
    rw [unmarshal_run_decode_ok c b o m hu, hr]
  · intro p hu hr
    rw [unmarshal_run_decode_ok c b o m hu, hr]

/-- C1 at a concrete input: decoding `[2]` into the example message with `[2]`
registered returns normally. -/
theorem C1_unmarshal_completes_iff_witness :
    (exampleCodec.unmarshal [2] SlotMsg.toObject (Mem.mk (SlotMsg.mk [] false) [])).2
      = Outcome.ret () :=
  (C1_unmarshal_completes_iff exampleCodec [2] SlotMsg.toObject
    (Mem.mk (SlotMsg.mk [] false) [])).1.2 ⟨by decide, by decide⟩

/-- C2: in `storeCodec.unmarshal` the resolver is called exactly once when the
object's `Unmarshal` returns `nil`, after that call and on the object it left
behind; when `Unmarshal` does not return `nil` (an error or a panic) the
resolver is not called at all and the object is as `Unmarshal` left it. -/
theorem C2_unmarshal_resolver_calls (c : storeCodec R) (b : List Byte) (o : Object ε R σ) (m : Mem σ) :
    ((o.Unmarshal b m.obj).2 = Outcome.ret none →
        (c.unmarshal b o m).1.calls = m.calls ++ [Call.Unmarshal b, Call.UnpackInterfaces] ∧
        List.count Call.UnpackInterfaces (c.unmarshal b o m).1.calls
          = List.count Call.UnpackInterfaces m.calls + 1 ∧
        (c.unmarshal b o m).1.obj
          = (codectypes.UnpackInterfaces o c.ir (o.Unmarshal b m.obj).1).1) ∧
    ((o.Unmarshal b m.obj).2 ≠ Outcome.ret none →
        (c.unmarshal b o m).1.calls = m.calls ++ [Call.Unmarshal b] ∧
        List.count Call.UnpackInterfaces (c.unmarshal b o m).1.calls
          = List.count Call.UnpackInterfaces m.calls ∧
        (c.unmarshal b o m).1.obj = (o.Unmarshal b m.obj).1) := by
  constructor
  · intro hu
    rw [unmarshal_run_decode_ok c b o m hu]
    simp [List.count_append, List.count_cons]
  · intro hu
    rcases hd : (o.Unmarshal b m.obj).2 with (_ | e) | p
    · exact absurd hd hu
    · rw [unmarshal_run_decode_error c b o m e hd]
      simp [List.count_append, List.count_cons]
    · rw [unmarshal_run_decode_panic c b o m p hd]
      simp [List.count_append, List.count_cons]

/-- C2 at concrete inputs: decoding `[2]` calls `Unmarshal` then the resolver,
decoding the empty input (which the example message rejects) calls `Unmarshal`
only. -/
theorem C2_unmarshal_resolver_calls_witness :
    (exampleCodec.unmarshal [2] SlotMsg.toObject (Mem.mk (SlotMsg.mk [] false) [])).1.calls
        = [Call.Unmarshal [2], Call.UnpackInterfaces] ∧
    (exampleCodec.unmarshal [] SlotMsg.toObject (Mem.mk (SlotMsg.mk [] false) [])).1.calls
        = [Call.Unmarshal []] :=
  ⟨((C2_unmarshal_resolver_calls exampleCodec [2] SlotMsg.toObject
      (Mem.mk (SlotMsg.mk [] false) [])).1 (by decide)).1,
   ((C2_unmarshal_resolver_calls exampleCodec [] SlotMsg.toObject
      (Mem.mk (SlotMsg.mk [] false) [])).2 (by decide)).1⟩

/-! ### `storeCodec.marshal` -/

/-- C3: `storeCodec.marshal` returns exactly the bytes of the object's
`Marshal` when that returns them with a `nil` error, having called nothing but
`Marshal`; it panics with the object's error when `Marshal` returns one; it
panics exactly when `Marshal` does not succeed; and a value it returns is never
anything but the bytes of a successful `Marshal`. -/
theorem C3_marshal_contract (c : storeCodec R) (o : Object ε R σ) (m : Mem σ) :
    (∀ bytes, (o.Marshal m.obj).2 = Outcome.ret (bytes, none) →
        c.marshal o m
          = (Mem.mk (o.Marshal m.obj).1 (m.calls ++ [Call.Marshal]), Outcome.ret bytes)) ∧
    (∀ bytes e, (o.Marshal m.obj).2 = Outcome.ret (bytes, some e) →
        (c.marshal o m).2 = Outcome.panic (PanicValue.error e)) ∧
    ((∃ p, (c.marshal o m).2 = Outcome.panic p) ↔
        ∀ bytes, (o.Marshal m.obj).2 ≠ Outcome.ret (bytes, none)) ∧
    (∀ bytes, (c.marshal o m).2 = Outcome.ret bytes →
        (o.Marshal m.obj).2 = Outcome.ret (bytes, none)) ∧
    (c.marshal o m).1.calls = m.calls ++ [Call.Marshal] := by
  rw [marshal_run c o m]
  refine ⟨?_, ?_, ?_, ?_, rfl⟩
  · intro bytes h
    rw [h]
  · intro bytes e h
    rw [h]
  · rcases hr : (o.Marshal m.obj).2 with ⟨bytes, _ | e⟩ | p <;> simp
  · intro bytes
    rcases hr : (o.Marshal m.obj).2 with ⟨bytes1, _ | e⟩ | p <;> simp

/-- C3 at concrete inputs: the example message holding `[2]` is encoded as
`[2]`, and the one over its size limit makes `marshal` panic with its error. -/
theorem C3_marshal_contract_witness :
    exampleCodec.marshal SlotMsg.toObject (Mem.mk (SlotMsg.mk [2] true) [])
        = (Mem.mk (SlotMsg.mk [2] true) [Call.Marshal], Outcome.ret [2]) ∧
    (exampleCodec.marshal SlotMsg.toObject (Mem.mk (SlotMsg.mk [1, 2, 3, 4, 5] true) [])).2
        = Outcome.panic (PanicValue.error "message too large") :=
  ⟨(C3_marshal_contract exampleCodec SlotMsg.toObject (Mem.mk (SlotMsg.mk [2] true) [])).1
      [2] (by decide),
   (C3_marshal_contract exampleCodec SlotMsg.toObject
      (Mem.mk (SlotMsg.mk [1, 2, 3, 4, 5] true) [])).2.1 [] "message too large" (by decide)⟩

/-! ### Round trip -/

/-- C4, as stated, fails: the example message over its size limit makes
`storeCodec.marshal` panic, so `unmarshal(marshal(o), o')` does not complete and
the fresh target is not made equal to `o`. -/
theorem C4_round_trip_counterexample :
    roundTrip exampleCodec SlotMsg.toObject (SlotMsg.mk [1, 2, 3, 4, 5] true) (SlotMsg.mk [] false)
        = (SlotMsg.mk [] false, Outcome.panic (PanicValue.error "message too large")) ∧
    roundTrip exampleCodec SlotMsg.toObject (SlotMsg.mk [1, 2, 3, 4, 5] true) (SlotMsg.mk [] false)
        ≠ (SlotMsg.mk [1, 2, 3, 4, 5] true, Outcome.ret ()) := by
  decide

/-- C4, amended: when the object's `Marshal` succeeds on `o` with bytes `b`
(leaving `o` as it was), and the object's `Unmarshal` of `b` into the fresh
target followed by interface resolution succeeds and gives back the value of
`o`, then
`unmarshal(marshal(o), o')` completes and leaves `o'` equal to `o`: the codec
passes the bytes on unchanged and adds nothing to the object's own coding. -/
theorem C4_round_trip_of_lawful (c : storeCodec R) (o : Object ε R σ) (s s' t : σ)
    (b : List Byte)
    (hM : o.Marshal s = (s, Outcome.ret (b, none)))
    (hU : o.Unmarshal b s' = (t, Outcome.ret none))
    (hR : codectypes.UnpackInterfaces o c.ir t = (s, Outcome.ret none)) :
    roundTrip c o s s' = (s, Outcome.ret ()) := by
  have h1 : c.marshal o (Mem.mk s []) = (Mem.mk s [Call.Marshal], Outcome.ret b) := by
    rw [marshal_run]
    simp [hM]
  have h2 : c.unmarshal b o (Mem.mk s' [])
      = (Mem.mk s [Call.Unmarshal b, Call.UnpackInterfaces], Outcome.ret ()) := by
    rw [unmarshal_run_decode_ok c b o (Mem.mk s' []) (by simp [hU])]
    simp [hU, hR]
  simp [roundTrip, h1, h2]

/-- C4, amended, at a concrete input: the example message with the registered
variant `[2]` in its slot comes back equal, slot resolved, in a fresh target. -/
theorem C4_round_trip_of_lawful_witness :
    roundTrip exampleCodec SlotMsg.toObject (SlotMsg.mk [2] true) (SlotMsg.mk [] false)
      = (SlotMsg.mk [2] true, Outcome.ret ()) :=
  C4_round_trip_of_lawful exampleCodec SlotMsg.toObject (SlotMsg.mk [2] true) (SlotMsg.mk [] false)
    (SlotMsg.mk [2] false) [2] (by decide) (by decide) (by decide)

/-! ### Failure at the resolve step -/

/-- C6, as stated, fails: decoding `[9]`, a type identifier the registry does
not know, into an empty example message succeeds at `Unmarshal`, fails at the
resolve step, and leaves the target holding `[9]`, not what it held before. -/
theorem C6_unknown_variant_counterexample :
    (SlotMsg.toObject.Unmarshal [9] (SlotMsg.mk [] false)).2 = Outcome.ret none ∧
    exampleCodec.unmarshal [9] SlotMsg.toObject (Mem.mk (SlotMsg.mk [] false) [])
        = (Mem.mk (SlotMsg.mk [9] false) [Call.Unmarshal [9], Call.UnpackInterfaces],
            Outcome.panic (PanicValue.error "no concrete type registered for type URL")) ∧
    (exampleCodec.unmarshal [9] SlotMsg.toObject (Mem.mk (SlotMsg.mk [] false) [])).1.obj
        ≠ SlotMsg.mk [] false := by
  decide

/-- C6, amended: when `Unmarshal` returns `nil` and the resolve step returns an
error, `storeCodec.unmarshal` panics with that error, so the object is never
handed back by a normal return; the target is not restored, it holds what
`Unmarshal` followed by the failed resolver pass left in it. -/
theorem C6_resolve_failure_aborts (c : storeCodec R) (b : List Byte) (o : Object ε R σ) (m : Mem σ)
    (e : ε) (hU : (o.Unmarshal b m.obj).2 = Outcome.ret none)
    (hR : (codectypes.UnpackInterfaces o c.ir (o.Unmarshal b m.obj).1).2 = Outcome.ret (some e)) :
    (c.unmarshal b o m).2 = Outcome.panic (PanicValue.error e) ∧
    (c.unmarshal b o m).2 ≠ Outcome.ret () ∧
    (c.unmarshal b o m).1.obj = (codectypes.UnpackInterfaces o c.ir (o.Unmarshal b m.obj).1).1 := by
  rw [unmarshal_run_decode_ok c b o m hU, hR]
  simp

/-- C6, amended, at a concrete input: the unknown identifier `[9]`. -/
theorem C6_resolve_failure_aborts_witness :
    (exampleCodec.unmarshal [9] SlotMsg.toObject (Mem.mk (SlotMsg.mk [] false) [])).2
        = Outcome.panic (PanicValue.error "no concrete type registered for type URL") ∧
    (exampleCodec.unmarshal [9] SlotMsg.toObject (Mem.mk (SlotMsg.mk [] false) [])).2
        ≠ Outcome.ret () ∧
    (exampleCodec.unmarshal [9] SlotMsg.toObject (Mem.mk (SlotMsg.mk [] false) [])).1.obj
        = (codectypes.UnpackInterfaces SlotMsg.toObject exampleCodec.ir
            (SlotMsg.toObject.Unmarshal [9] (SlotMsg.mk [] false)).1).1 :=
  C6_resolve_failure_aborts exampleCodec [9] SlotMsg.toObject (Mem.mk (SlotMsg.mk [] false) [])
    "no concrete type registered for type URL" (by decide) (by decide)

/-! ### The sentinel `setObject` -/

/-- C5: `setObject.Unmarshal` returns `nil` exactly when the bytes are empty,
and then leaves the sentinel as it was (in both shapes); on any other bytes it
does not return at all, it panics with "bad usage". -/
theorem C5_setObject_Unmarshal (n : setObject) (b : List Byte) :
    ((setObject.Unmarshal n b : Outcome ε (Option ε)) = Outcome.ret none ↔ b = []) ∧
    (b ≠ [] → (setObject.Unmarshal n b : Outcome ε (Option ε))
        = Outcome.panic (PanicValue.message "bad usage")) ∧
    (b ≠ [] → ∀ err, (setObject.Unmarshal n b : Outcome ε (Option ε)) ≠ Outcome.ret err) ∧
    ((setObject.toObject : Object ε R setObject).Unmarshal b n).1 = n ∧
    ((setObject.ptrToObject : Object ε R setObject).Unmarshal b n).1 = n := by
  by_cases hb : b = []
  · simp [setObject.Unmarshal, bytes.Equal, setObject.toObject, setObject.ptrToObject, hb]
  · simp [setObject.Unmarshal, bytes.Equal, setObject.toObject, setObject.ptrToObject, hb]

/-- C5 at concrete inputs: the empty bytes are accepted, `[0x01]` panics. -/
theorem C5_setObject_Unmarshal_witness :
    (setObject.Unmarshal setObject.mk [] : Outcome String (Option String)) = Outcome.ret none ∧
    (setObject.Unmarshal setObject.mk [0x01] : Outcome String (Option String))
      = Outcome.panic (PanicValue.message "bad usage") :=
  ⟨(@C5_setObject_Unmarshal String Unit setObject.mk []).1.2 rfl,
   (@C5_setObject_Unmarshal String Unit setObject.mk [0x01]).2.1 (by decide)⟩

/-- C7: `typeName` is a total function with a three-way answer. For an object
whose dynamic type is `setObject` or `*setObject` it is "no-op-object", whether
or not the object is a `proto.Message`; for any other object that is a
`proto.Message` it is the name `proto.MessageName` gives; for the rest it is
"unknown". The two sentinel objects get "no-op-object". -/
theorem C7_typeName_policy (MessageName : Object ε R σ → σ → String) (o : Object ε R σ) (s : σ) :
    ((o.dynType = GoType.setObject ∨ o.dynType = GoType.ptrSetObject) →
        typeName MessageName o s = "no-op-object") ∧
    (o.dynType ≠ GoType.setObject → o.dynType ≠ GoType.ptrSetObject → o.ProtoMessage = true →
        typeName MessageName o s = MessageName o s) ∧
    (o.dynType ≠ GoType.setObject → o.dynType ≠ GoType.ptrSetObject → o.ProtoMessage = false →
        typeName MessageName o s = "unknown") ∧
    (∀ (MN : Object ε R setObject → setObject → String) (n : setObject),
        typeName MN setObject.toObject n = "no-op-object" ∧
        typeName MN setObject.ptrToObject n = "no-op-object") := by
  refine ⟨?_, ?_, ?_, ?_⟩
  · rintro (h | h) <;> simp [typeName, h]
  · intro h1 h2 hp
    rcases hd : o.dynType with _ | _ | name
    · exact absurd hd h1
    · exact absurd hd h2
    · simp [typeName, hd, hp]
  · intro h1 h2 hp
    rcases hd : o.dynType with _ | _ | name
    · exact absurd hd h1
    · exact absurd hd h2
    · simp [typeName, hd, hp]
  · intro MN n
    simp [typeName, setObject.toObject, setObject.ptrToObject]

/-- C7 at concrete inputs: a sentinel-typed object that also is a
`proto.Message` is still "no-op-object"; the example message, a
`proto.Message`, gets its message name; the same message without the
`proto.Message` methods gets "unknown". -/
theorem C7_typeName_policy_witness :
    typeName (fun _ _ => "nibiru.Sentinel")
        (Object.mk GoType.setObject (fun n => (n, setObject.Marshal n))
          (fun b n => (n, setObject.Unmarshal n b)) none true : Object String Unit setObject)
        setObject.mk = "no-op-object" ∧
    typeName (fun _ _ => "nibiru.SlotMsg") SlotMsg.toObject (SlotMsg.mk [2] true)
        = "nibiru.SlotMsg" ∧
    typeName (fun _ _ => "nibiru.SlotMsg")
        (Object.mk (GoType.other "SlotMsg") SlotMsg.Marshal SlotMsg.Unmarshal
          (some SlotMsg.UnpackInterfaces) false)
        (SlotMsg.mk [2] true) = "unknown" :=
  ⟨(C7_typeName_policy _ _ _).1 (Or.inl rfl),
   (C7_typeName_policy _ _ _).2.1 (by decide) (by decide) rfl,
   (C7_typeName_policy _ _ _).2.2.1 (by decide) (by decide) rfl⟩

/-- C8: `setObject.Marshal` returns the empty bytes and a `nil` error for every
receiver, and `storeCodec.marshal` of the sentinel, in either shape, returns the
empty bytes without panicking and leaves the sentinel as it was. -/
theorem C8_setObject_marshal_empty (c : storeCodec R) (o : Object ε R setObject) (m : Mem setObject)
    (ho : o = setObject.toObject ∨ o = setObject.ptrToObject) :
    (∀ n : setObject, (setObject.Marshal n : Outcome ε (List Byte × Option ε)) = Outcome.ret ([], none)) ∧
    c.marshal o m = (Mem.mk m.obj (m.calls ++ [Call.Marshal]), Outcome.ret []) := by
  refine ⟨fun n => rfl, ?_⟩
  rcases ho with rfl | rfl <;>
    simp [marshal_run, setObject.toObject, setObject.ptrToObject, setObject.Marshal]

/-- C8 at a concrete input: the sentinel value under the example codec. -/
theorem C8_setObject_marshal_empty_witness :
    exampleCodec.marshal (setObject.toObject : Object String (List (List Byte)) setObject)
        (Mem.mk setObject.mk [])
      = (Mem.mk setObject.mk [Call.Marshal], Outcome.ret []) :=
  (C8_setObject_marshal_empty exampleCodec setObject.toObject (Mem.mk setObject.mk [])
    (Or.inl rfl)).2

/-- C9: for every registry, `storeCodec.unmarshal` of the empty bytes into the
sentinel, in either shape, returns normally with the sentinel as it was: the
sentinel has no `UnpackInterfaces` method, so the resolve step returns `nil`
whatever the registry holds. Doing it twice in a row returns normally both
times, again with the sentinel as it was, and `unmarshal(marshal(sentinel),
sentinel)` returns normally. The registry is a value the codec only reads. -/
theorem C9_setObject_unmarshal_empty (c : storeCodec R) (o : Object ε R setObject) (m : Mem setObject)
    (n n' : setObject) (ho : o = setObject.toObject ∨ o = setObject.ptrToObject) :
    (codectypes.UnpackInterfaces o c.ir n = (n, Outcome.ret none)) ∧
    c.unmarshal [] o m
        = (Mem.mk m.obj (m.calls ++ [Call.Unmarshal [], Call.UnpackInterfaces]), Outcome.ret ()) ∧
    Go.bind (c.unmarshal [] o) (fun _ => c.unmarshal [] o) m
        = (Mem.mk m.obj (m.calls ++ [Call.Unmarshal [], Call.UnpackInterfaces,
              Call.Unmarshal [], Call.UnpackInterfaces]), Outcome.ret ()) ∧
    roundTrip c o n n' = (n', Outcome.ret ()) := by
  have hr : codectypes.UnpackInterfaces o c.ir n = (n, Outcome.ret none) := by
    rcases ho with rfl | rfl <;> rfl
  have hu : ∀ m1 : Mem setObject, c.unmarshal [] o m1
      = (Mem.mk m1.obj (m1.calls ++ [Call.Unmarshal [], Call.UnpackInterfaces]), Outcome.ret ()) := by
    intro m1
    have hd : (o.Unmarshal [] m1.obj).2 = Outcome.ret none := by
      rcases ho with rfl | rfl <;> rfl
    rw [unmarshal_run_decode_ok c [] o m1 hd]
    rcases ho with rfl | rfl <;> rfl
  have hm : c.marshal o (Mem.mk n []) = (Mem.mk n [Call.Marshal], Outcome.ret []) := by
    rcases ho with rfl | rfl <;>
      simp [marshal_run, setObject.toObject, setObject.ptrToObject, setObject.Marshal]
  refine ⟨hr, hu m, ?_, ?_⟩
  · simp [Go.bind, hu]
  · simp [roundTrip, hm, hu]

/-- C9 at a concrete input: the sentinel value under the example codec. -/
theorem C9_setObject_unmarshal_empty_witness :
    exampleCodec.unmarshal [] (setObject.toObject : Object String (List (List Byte)) setObject)
        (Mem.mk setObject.mk [])
      = (Mem.mk setObject.mk [Call.Unmarshal [], Call.UnpackInterfaces], Outcome.ret ()) :=
  (C9_setObject_unmarshal_empty exampleCodec setObject.toObject (Mem.mk setObject.mk [])
    setObject.mk setObject.mk (Or.inl rfl)).2.1

/-- C10: `setObject.String` never returns a string: on every call it panics
with "must never be called". -/
theorem C10_setObject_String_panics (n : setObject) :
    (setObject.String n : Outcome ε String)
        = Outcome.panic (PanicValue.message "must never be called") ∧
    ∀ str : String, (setObject.String n : Outcome ε String) ≠ Outcome.ret str := by
  simp [setObject.String]

end collections
